import Mathlib

/-!
Shallow embedding of the repository's two subsystems:
the model-call wrapper (`BaseAgent.call_llm` in backend/agents/base_agent.py)
and the GRC REST client (`ArcherInstance` in tests/archer_modernized.py).

Python dictionaries are modelled as association lists where insertion
appends a binding and lookup returns the value of the last binding for a
key (so re-insertion overwrites for lookup purposes, matching dict
assignment).  Python exceptions are modelled by the inductive `PyErr`:
the Archer client's named exception classes each get a constructor, and
an uncaught Python `KeyError`/`TypeError` is modelled by `PyErr.keyError`
(an untranslated exception, not one of the client's named errors).
HTTP traffic is modelled by response oracles passed as arguments; each
operation returns, next to its result, the list of requests it issued.
-/

/-- Exception kinds raised by the embedded code.  The first six mirror the
client's exception classes (`ArcherAPIError` and its subclasses); the last
three model raw Python `ValueError`, `KeyError`/`TypeError` and
`httpx.NetworkError`, which the client does not translate. -/
inductive PyErr where
  | authenticationError
  | applicationNotFound
  | groupNotFound
  | recordNotFound
  | fieldNotFound
  | archerAPIError
  | valueError
  | keyError
  | networkError
deriving DecidableEq, Repr

/-- The four named not-found exception classes of the client
(`ApplicationNotFoundError`, `GroupNotFoundError`, `FieldNotFoundError`,
`RecordNotFoundError`). -/
def PyErr.isNamedNotFound : PyErr → Bool
  | .applicationNotFound => true
  | .groupNotFound => true
  | .fieldNotFound => true
  | .recordNotFound => true
  | _ => false

/-- JSON-like dynamic values (Python objects travelling through the client). -/
inductive JVal where
  | str : String → JVal
  | int : Int → JVal
  | bool : Bool → JVal
  | null : JVal
  | arr : List JVal → JVal
  | obj : List (String × JVal) → JVal

/-- Python dict lookup on an association list: the value of the last
binding for the key (assignment appends, so later assignments win). -/
def dlookup {κ α : Type} [DecidableEq κ] : List (κ × α) → κ → Option α
  | [], _ => none
  | (k, v) :: rest, k0 =>
    match dlookup rest k0 with
    | some r => some r
    | none => if k = k0 then some v else none

/-- Field access `body[key]` on a JSON value: `none` models a Python
`KeyError` (key absent) or `TypeError` (not a dict). -/
def jget : JVal → String → Option JVal
  | .obj fields, k => dlookup fields k
  | _, _ => none

/-- Python `str()` rendering used by f-string interpolation.  Scalars are
rendered exactly as Python renders them; container rendering is
approximated (no claim evaluates it on a container). -/
def pyStr : JVal → String
  | .str s => s
  | .int i => toString i
  | .bool b => bif b then "True" else "False"
  | .null => "None"
  | .arr _ => "[...]"
  | .obj _ => "\x7b...\x7d"

/-- An HTTP response: status code and JSON body.  `httpx`'s
`raise_for_status` raises exactly when the status is a 4xx or 5xx. -/
structure Response where
  status : Nat
  body : JVal

/- ---------------------------------------------------------------------
Model-call wrapper (backend/agents/base_agent.py, BaseAgent.call_llm).
--------------------------------------------------------------------- -/

/-- One entry of the chat `messages` payload. -/
structure ChatMessage where
  role : String
  content : String
deriving DecidableEq, Repr

/-- Message of one choice of the model response. -/
structure LLMMessage where
  content : String

/-- One choice of the model response. -/
structure LLMChoice where
  message : LLMMessage

/-- Response of `client.chat.completions.create`. -/
structure LLMResponse where
  choices : List LLMChoice

/-- The `messages` list built by `call_llm`: the system message is
appended only when `system_prompt` is truthy (Python: not `None` and not
the empty string), then the user prompt is appended. -/
def call_llm_messages (prompt : String) (system_prompt : Option String) :
    List ChatMessage :=
  let messages : List ChatMessage := []
  let messages :=
    match system_prompt with
    | none => messages
    | some sp => if sp = "" then messages else messages ++ [⟨"system", sp⟩]
  messages ++ [⟨"user", prompt⟩]

/-- The call_llm wrapper: build the messages, call the completion API
(modelled by the oracle `complete`), and return
`response.choices[0].message.content`; `none` models the `IndexError`
Python would raise on an empty `choices`. -/
def call_llm (prompt : String) (system_prompt : Option String)
    (complete : List ChatMessage → LLMResponse) : Option String :=
  match (complete (call_llm_messages prompt system_prompt)).choices with
  | [] => none
  | c :: _ => some c.message.content

/- ---------------------------------------------------------------------
ArcherInstance constructor (archer_modernized.py, __init__).
--------------------------------------------------------------------- -/

/-- Python truthiness of an optional string: `None` and `""` are falsy. -/
def truthyOpt : Option String → Bool
  | none => false
  | some s => s ≠ ""

/-- Stored credentials (`AuthCredentials`); only the fields the claims
touch are kept. -/
structure AuthCredentials where
  username : String
  password : String
deriving DecidableEq, Repr

/-- Authentication material held by a constructed instance. -/
structure InitState where
  credentials : Option AuthCredentials
  sessionToken : Option String
deriving DecidableEq, Repr

/-- The authentication part of `ArcherInstance.__init__`: the session
token argument is stored as-is; `_credentials` is set when both username
and password are truthy; otherwise, if the session token is falsy, a
`ValueError` is raised. -/
def archer_init (username password session_token : Option String) :
    Except PyErr InitState :=
  if truthyOpt username && truthyOpt password then
    .ok ⟨some ⟨username.getD "", password.getD ""⟩, session_token⟩
  else if !truthyOpt session_token then
    .error .valueError
  else
    .ok ⟨none, session_token⟩

/- ---------------------------------------------------------------------
Client caches and cache-lookup operations.
--------------------------------------------------------------------- -/

/-- Cached metadata for a field id: the value stored under the field's
integer id in `application_fields_json`, namely `\x7b"Type": t,
"FieldId": i\x7d`. -/
structure FieldMeta where
  type : Int
  fieldId : Int
deriving DecidableEq, Repr

/-- Cached subform data, one value of `subforms_json_by_sf_name`.  The
source stores a single dict with mixed keys (field-name keys mapping to
ids, integer keys mapping to metadata, plus `"LevelId"` and
`"AllFields"`); string and integer keys can never collide in Python, so
the dict is split here by key kind. -/
structure SubformInfo where
  fieldNameToId : List (String × Int)
  idToMeta : List (Int × FieldMeta)
  levelId : Int
  allFields : List Int

/-- The in-memory caches of an `ArcherInstance`.
`application_fields_json` has mixed string/int keys and is likewise split
into `appFieldNameToId` (its string keys) and `appFieldIdToMeta` (its
int keys). -/
structure ClientState where
  applicationLevelId : String
  appFieldNameToId : List (String × Int)
  appFieldIdToMeta : List (Int × FieldMeta)
  vlNameToVlId : List (String × Int)
  subforms : List (String × SubformInfo)
  keyFieldValueToSystemId : List (String × JVal)
  groupsNameToId : List (String × Int)

/-- ArcherInstance.get_group_id: raise `GroupNotFoundError` when the name
is not a key of `archer_groups_name_to_id`, else return the cached id.
The state component records that the method leaves the caches unchanged. -/
def get_group_id (st : ClientState) (group_name : String) :
    Except PyErr Int × ClientState :=
  match dlookup st.groupsNameToId group_name with
  | none => (.error .groupNotFound, st)
  | some i => (.ok i, st)

/-- ArcherInstance.get_vl_id_by_field_name: raise `FieldNotFoundError`
when the name is not a key of `vl_name_to_vl_id`, else return the cached
values-list id. -/
def get_vl_id_by_field_name (st : ClientState) (vl_field_name : String) :
    Except PyErr Int × ClientState :=
  match dlookup st.vlNameToVlId vl_field_name with
  | none => (.error .fieldNotFound, st)
  | some i => (.ok i, st)

/-- ArcherInstance.get_record_id_by_unique_value: raise
`RecordNotFoundError` when the key value is not a key of
`key_field_value_to_system_id`, else return the cached record id. -/
def get_record_id_by_unique_value (st : ClientState) (key_value : String) :
    Except PyErr JVal × ClientState :=
  match dlookup st.keyFieldValueToSystemId key_value with
  | none => (.error .recordNotFound, st)
  | some v => (.ok v, st)

/-- Does the character list `hay` start with `needle`? -/
def startsWithChars : List Char → List Char → Bool
  | _, [] => true
  | [], _ :: _ => false
  | h :: hs, n :: ns => (h = n) && startsWithChars hs ns

/-- Does `needle` occur as a contiguous run inside `hay`?  (Python's
`needle in hay` on strings.) -/
def containsChars : List Char → List Char → Bool
  | [], needle => needle.isEmpty
  | h :: hs, needle => startsWithChars (h :: hs) needle || containsChars hs needle

/-- Python substring test `needle in hay` on strings. -/
def strContains (hay needle : String) : Bool :=
  containsChars hay.toList needle.toList

/-- ArcherInstance.find_group: an empty name returns every cached group
name; otherwise the cached names that contain `name` as a substring are
returned, and `GroupNotFoundError` is raised when there is none. -/
def find_group (st : ClientState) (name : String) :
    Except PyErr (List String) :=
  if name = "" then
    .ok (st.groupsNameToId.map Prod.fst)
  else
    let found := (st.groupsNameToId.map Prod.fst).filter
      (fun g => strContains g name)
    if found = [] then .error .groupNotFound else .ok found

/- ---------------------------------------------------------------------
Lemmas about the dict model.
--------------------------------------------------------------------- -/

/-- Lookup in an appended dict: bindings of the second list win. -/
theorem dlookup_append {κ α : Type} [DecidableEq κ]
    (a b : List (κ × α)) (k : κ) :
    dlookup (a ++ b) k =
      match dlookup b k with
      | some v => some v
      | none => dlookup a k := by
  induction a with
  | nil =>
    simp only [List.nil_append]
    cases dlookup b k <;> rfl
  | cons p rest ih =>
    obtain ⟨k1, v1⟩ := p
    simp only [List.cons_append, dlookup, List.append_eq]
    rw [ih]
    cases dlookup b k <;> cases dlookup rest k <;> simp

/-- A successful lookup returns a binding that is literally present, with
key exactly equal to the query. -/
theorem dlookup_mem {κ α : Type} [DecidableEq κ]
    {l : List (κ × α)} {k : κ} {v : α} (h : dlookup l k = some v) :
    (k, v) ∈ l := by
  induction l with
  | nil => simp [dlookup] at h
  | cons p rest ih =>
    obtain ⟨k1, v1⟩ := p
    simp only [dlookup] at h
    cases hrest : dlookup rest k with
    | some r =>
      rw [hrest] at h
      exact List.mem_cons_of_mem _ (ih (hrest.trans h))
    | none =>
      rw [hrest] at h
      by_cases hk : k1 = k
      · simp [hk] at h
        subst hk h
        exact List.mem_cons_self _ _
      · simp [hk] at h

/-- Lookup fails exactly when no binding carries the key. -/
theorem dlookup_eq_none {κ α : Type} [DecidableEq κ]
    (l : List (κ × α)) (k : κ) :
    dlookup l k = none ↔ ∀ p ∈ l, p.1 ≠ k := by
  induction l with
  | nil => simp [dlookup]
  | cons p rest ih =>
    obtain ⟨k1, v1⟩ := p
    simp only [dlookup, List.mem_cons]
    cases hrest : dlookup rest k with
    | some r =>
      constructor
      · intro h; cases h
      · intro h
        exact absurd rfl (h (k, r) (Or.inr (dlookup_mem hrest)))
    | none =>
      have hr := ih.mp hrest
      by_cases hk : k1 = k
      · subst hk
        simp only [if_pos rfl]
        constructor
        · intro h; cases h
        · intro h
          exact absurd rfl (h (k1, v1) (Or.inl rfl))
      · simp only [if_neg hk]
        constructor
        · intro _ q hq
          rcases hq with hq | hq
          · subst hq; exact hk
          · exact hr q hq
        · intro _; trivial

/- ---------------------------------------------------------------------
Content-record creation and update (archer_modernized.py).
--------------------------------------------------------------------- -/

/-- ArcherInstance.get_field_id_by_name: look the field name up in the
subform cache (when a subform name is given) or in
`application_fields_json`; a missing key (a Python `KeyError`, including
a missing subform name) is caught and re-raised as `FieldNotFoundError`. -/
def get_field_id_by_name (st : ClientState) (field_name : String)
    (subform_name : Option String) : Except PyErr Int :=
  match subform_name with
  | some sf =>
    match dlookup st.subforms sf with
    | none => .error .fieldNotFound
    | some info =>
      match dlookup info.fieldNameToId field_name with
      | none => .error .fieldNotFound
      | some i => .ok i
  | none =>
    match dlookup st.appFieldNameToId field_name with
    | none => .error .fieldNotFound
    | some i => .ok i

/-- One entry of `FieldContents`: the cached metadata dict copied and
extended with a `"Value"` key. -/
structure FieldEntry where
  type : Int
  fieldId : Int
  value : JVal

/-- ArcherInstance._prepare_field_value: copy the metadata stored under
the integer key `field_id` of `application_fields_json` and add the
value.  A missing key is an uncaught Python `KeyError`. -/
def prepare_field_value (st : ClientState) (field_id : Int) (v : JVal) :
    Except PyErr FieldEntry :=
  match dlookup st.appFieldIdToMeta field_id with
  | none => .error .keyError
  | some m => .ok ⟨m.type, m.fieldId, v⟩

/-- The name-to-id substitution loop of create_content_record, in
iteration order of `fields_json`: the first failing field aborts the
whole call. -/
def transformFields (st : ClientState) :
    List (String × JVal) → Except PyErr (List (Int × FieldEntry))
  | [] => .ok []
  | (name, v) :: rest =>
    match get_field_id_by_name st name none with
    | .error e => .error e
    | .ok fid =>
      match prepare_field_value st fid v with
      | .error e => .error e
      | .ok entry =>
        match transformFields st rest with
        | .error e => .error e
        | .ok tail => .ok ((fid, entry) :: tail)

/-- The request submitted by create_content_record: method override
header, optional content id (update only), level id, and the
`FieldContents` object keyed by numeric field ids. -/
structure ContentRequest where
  methodOverride : String
  contentId : Option Int
  levelId : String
  fieldContents : List (Int × FieldEntry)

/-- ArcherInstance.create_content_record: substitute names by ids, then
submit one request (PUT with the record id when `record_id` is truthy,
POST otherwise) and return `data["RequestedObject"]["Id"]`.  A non-2xx
status is translated to `ArcherAPIError`; the second component lists the
requests issued. -/
def create_content_record (st : ClientState) (fields_json : List (String × JVal))
    (record_id : Option Int) (respond : ContentRequest → Response) :
    Except PyErr JVal × List ContentRequest :=
  match transformFields st fields_json with
  | .error e => (.error e, [])
  | .ok transformed =>
    let isUpdate : Bool :=
      match record_id with
      | none => false
      | some i => i != 0
    let req : ContentRequest :=
      if isUpdate then
        ⟨"PUT", record_id, st.applicationLevelId, transformed⟩
      else
        ⟨"POST", none, st.applicationLevelId, transformed⟩
    let resp := respond req
    if 400 ≤ resp.status then
      (.error .archerAPIError, [req])
    else
      match jget resp.body "RequestedObject" with
      | none => (.error .keyError, [req])
      | some ro =>
        match jget ro "Id" with
        | none => (.error .keyError, [req])
        | some idv => (.ok idv, [req])

/-- ArcherInstance.update_content_record: delegates unchanged to
create_content_record with the record id. -/
def update_content_record (st : ClientState) (updated_json : List (String × JVal))
    (record_id : Int) (respond : ContentRequest → Response) :
    Except PyErr JVal × List ContentRequest :=
  create_content_record st updated_json (some record_id) respond

/- ---------------------------------------------------------------------
Subform record operations (create_sub_record, get_sub_record).
--------------------------------------------------------------------- -/

/-- The request submitted by create_sub_record. -/
structure SubRecordRequest where
  levelId : Int
  fieldContents : List (Int × FieldEntry)
  subformFieldId : Int

/-- The field-name substitution loop of create_sub_record: ids and
metadata come from the subform's own cache dict, accessed raw (a missing
key is an uncaught Python `KeyError`). -/
def transformSubformFields (info : SubformInfo) :
    List (String × JVal) → Except PyErr (List (Int × FieldEntry))
  | [] => .ok []
  | (name, v) :: rest =>
    match dlookup info.fieldNameToId name with
    | none => .error .keyError
    | some fid =>
      match dlookup info.idToMeta fid with
      | none => .error .keyError
      | some m =>
        match transformSubformFields info rest with
        | .error e => .error e
        | .ok tail => .ok ((fid, ⟨m.type, m.fieldId, v⟩) :: tail)

/-- ArcherInstance.create_sub_record: the subform name is first resolved
through get_field_id_by_name against `application_fields_json` (raising
`FieldNotFoundError` when absent there); `subforms_json_by_sf_name` is
then accessed raw, so a subform name missing from that cache is an
uncaught Python `KeyError`. -/
def create_sub_record (st : ClientState) (fields_json : List (String × JVal))
    (subform_name : String) (respond : SubRecordRequest → Response) :
    Except PyErr JVal × List SubRecordRequest :=
  match get_field_id_by_name st subform_name none with
  | .error e => (.error e, [])
  | .ok subformFieldId =>
    match dlookup st.subforms subform_name with
    | none => (.error .keyError, [])
    | some info =>
      match transformSubformFields info fields_json with
      | .error e => (.error e, [])
      | .ok transformed =>
        let req : SubRecordRequest := ⟨info.levelId, transformed, subformFieldId⟩
        let resp := respond req
        if 400 ≤ resp.status then
          (.error .archerAPIError, [req])
        else
          match jget resp.body "RequestedObject" with
          | none => (.error .keyError, [req])
          | some ro =>
            match jget ro "Id" with
            | none => (.error .keyError, [req])
            | some idv => (.ok idv, [req])

/-- The request submitted by get_sub_record (and get_record): a field-id
list and the content ids. -/
structure FieldContentRequest where
  fieldIds : List Int
  contentIds : List String

/-- ArcherInstance.get_sub_record: `subforms_json_by_sf_name` is accessed
raw before any validation, so a subform name missing from the cache is an
uncaught Python `KeyError` and no request is issued; an empty response
array raises `RecordNotFoundError`. -/
def get_sub_record (st : ClientState) (sub_record_id : Int)
    (sub_record_name : String) (respond : FieldContentRequest → Response) :
    Except PyErr JVal × List FieldContentRequest :=
  match dlookup st.subforms sub_record_name with
  | none => (.error .keyError, [])
  | some info =>
    let req : FieldContentRequest := ⟨info.allFields, [toString sub_record_id]⟩
    let resp := respond req
    if 400 ≤ resp.status then
      (.error .archerAPIError, [req])
    else
      match resp.body with
      | .arr [] => (.error .recordNotFound, [req])
      | .arr (first :: _) =>
        match jget first "RequestedObject" with
        | none => (.error .keyError, [req])
        | some ro => (.ok ro, [req])
      | _ => (.error .keyError, [req])

/- ---------------------------------------------------------------------
Pagination (get_grc_endpoint_records, build_unique_value_to_id_mapping).
--------------------------------------------------------------------- -/

/-- One record of a GRC endpoint batch: a JSON object. -/
abbrev JObj := List (String × JVal)

/-- Response of a GRC endpoint call, as consumed by
get_grc_endpoint_records: the status and, when present, the record array
under the body's `"value"` key. -/
structure GrcResponse where
  status : Nat
  value : Option (List JObj)

/-- ArcherInstance.get_grc_endpoint_records for a given skip value: a
4xx/5xx status is translated to `ArcherAPIError`; a body without a
`"value"` key is an uncaught Python `KeyError`. -/
def get_grc_endpoint_records (respond : Nat → GrcResponse) (skip : Nat) :
    Except PyErr (List JObj) :=
  let resp := respond skip
  if 400 ≤ resp.status then
    .error .archerAPIError
  else
    match resp.value with
    | none => .error .keyError
    | some batch => .ok batch

/-- The while loop of build_unique_value_to_id_mapping: fetch the batch
at `skip`; stop on an empty batch, on a batch of fewer than 1000
records, when more than 21 consecutive full batches have been fetched,
or when `skip` reaches `max_records`; otherwise advance `skip` by 1000.
The source counts `consecutive_full_batches` upward, breaking when it
exceeds 21 after its increment; the loop recurses here on the remaining
full-batch budget `budget = 21 - consecutive_full_batches` (so the
source's break test `consecutive_full_batches + 1 > 21` is `budget = 0`,
and the loop starts with `budget = 21`).  Returns the records gathered
from this point on and the skips requested. -/
def buildLoop (respond : Nat → GrcResponse) (max_records : Nat) :
    Nat → Nat → Except PyErr (List JObj) × List Nat
  | budget, skip =>
    if skip < max_records then
      match get_grc_endpoint_records respond skip with
      | .error e => (.error e, [skip])
      | .ok batch =>
        if batch.isEmpty then (.ok [], [skip])
        else if batch.length = 1000 then
          match budget with
          | 0 => (.ok batch, [skip])
          | b + 1 =>
            match buildLoop respond max_records b (skip + 1000) with
            | (.error e, ks) => (.error e, skip :: ks)
            | (.ok rest, ks) => (.ok (batch ++ rest), skip :: ks)
        else (.ok batch, [skip])
    else (.ok [], [])

/-- The mapping-building loop of build_unique_value_to_id_mapping over
the gathered records: a record containing `key_value_field` inserts
`prefix + str(value)` mapped to its `"{endpoint_url}_Id"` value; a record
lacking `key_value_field` contributes nothing; a record lacking the
`"{endpoint_url}_Id"` key is an uncaught Python `KeyError`, at which
point the insertions made so far persist. -/
def mapRecords (endpoint_url key_value_field pre : String) :
    List JObj → List (String × JVal) → Option PyErr × List (String × JVal)
  | [], acc => (none, acc)
  | r :: rs, acc =>
    match dlookup r key_value_field with
    | none => mapRecords endpoint_url key_value_field pre rs acc
    | some v =>
      match dlookup r (endpoint_url ++ "_Id") with
      | none => (some .keyError, acc)
      | some sid =>
        mapRecords endpoint_url key_value_field pre rs
          (acc ++ [(pre ++ pyStr v, sid)])

/-- Replace the `key_field_value_to_system_id` cache of a client state. -/
def setKeyMap (st : ClientState) (m : List (String × JVal)) : ClientState :=
  ⟨st.applicationLevelId, st.appFieldNameToId, st.appFieldIdToMeta,
   st.vlNameToVlId, st.subforms, m, st.groupsNameToId⟩

/-- ArcherInstance.build_unique_value_to_id_mapping: run the paginated
fetch loop from skip 0 with the full budget of 21 further full batches
(`consecutive_full_batches = 0`), then fold the gathered records into
`key_field_value_to_system_id`.  Returns the error if any (`none` on
success), the updated client state, and the skips requested. -/
def build_unique_value_to_id_mapping (st : ClientState)
    (respond : Nat → GrcResponse) (endpoint_url key_value_field pre : String)
    (max_records : Nat) : Option PyErr × ClientState × List Nat :=
  match buildLoop respond max_records 21 0 with
  | (.error e, ks) => (some e, st, ks)
  | (.ok allRecords, ks) =>
    match mapRecords endpoint_url key_value_field pre allRecords
        st.keyFieldValueToSystemId with
    | (e, m) => (e, setKeyMap st m, ks)

/- ---------------------------------------------------------------------
Session-token acquisition and its retry policy (get_session_token).
--------------------------------------------------------------------- -/

/-- Outcome of one login attempt at the transport level: either a raised
`httpx.NetworkError` or an HTTP response. -/
inductive AttemptOutcome where
  | networkError
  | response : Response → AttemptOutcome

/-- The body of get_session_token for one attempt: no credentials raises
`AuthenticationError`; a network error propagates untranslated (the retry
decorator sees it); a 4xx/5xx status and a malformed body (missing
`RequestedObject`/`SessionToken`, a `KeyError` or `TypeError` in Python)
are translated to `AuthenticationError`; otherwise the token is returned. -/
def sessionTokenAttempt (credentials : Option AuthCredentials)
    (outcomes : Nat → AttemptOutcome) (i : Nat) : Except PyErr JVal :=
  match credentials with
  | none => .error .authenticationError
  | some _ =>
    match outcomes i with
    | .networkError => .error .networkError
    | .response resp =>
      if 400 ≤ resp.status then .error .authenticationError
      else
        match jget resp.body "RequestedObject" with
        | none => .error .authenticationError
        | some ro =>
          match jget ro "SessionToken" with
          | none => .error .authenticationError
          | some tok => .ok tok

/-- Is this result a raised `httpx.NetworkError`? -/
def isNetworkError {α : Type} : Except PyErr α → Bool
  | .error .networkError => true
  | _ => false

/-- The tenacity retry policy of get_session_token
(`stop_after_attempt(3)`, `retry_if_exception_type(httpx.NetworkError)`,
`reraise=True`): run attempts starting at index `i`; a network error is
retried while attempts remain, any other outcome (success or other
exception) is returned at once; the last attempt's outcome is returned
as-is (the last error is reraised).  Returns the result and the indices
of the attempts made. -/
def runWithRetry {α : Type} (f : Nat → Except PyErr α) :
    Nat → Nat → Except PyErr α × List Nat
  | 0, _ => (.error .networkError, [])
  | 1, i => (f i, [i])
  | n + 2, i =>
    if isNetworkError (f i) then
      match runWithRetry f (n + 1) (i + 1) with
      | (res, is) => (res, i :: is)
    else (f i, [i])

/-- ArcherInstance.get_session_token: the attempt body wrapped in the
retry policy, at most 3 attempts. -/
def get_session_token (credentials : Option AuthCredentials)
    (outcomes : Nat → AttemptOutcome) : Except PyErr JVal × List Nat :=
  runWithRetry (sessionTokenAttempt credentials outcomes) 3 0

/- ---------------------------------------------------------------------
Claim theorems.
--------------------------------------------------------------------- -/

/-- C9: update_content_record(updated_json, record_id) is behaviourally
identical to create_content_record(updated_json, record_id): same issued
request, same returned id on success, same raised exception on failure
(the method delegates unchanged). -/
theorem update_content_record_eq_create (st : ClientState)
    (updated_json : List (String × JVal)) (record_id : Int)
    (respond : ContentRequest → Response) :
    update_content_record st updated_json record_id respond =
      create_content_record st updated_json (some record_id) respond := rfl

/-- C10: the constructor raises ValueError exactly when neither a truthy
username/password pair nor a truthy session token is supplied, and every
successfully constructed state carries stored credentials or a session
token. -/
theorem archer_init_c10 (username password session_token : Option String) :
    (archer_init username password session_token = .error .valueError ↔
      ¬((truthyOpt username && truthyOpt password) = true ∨
        truthyOpt session_token = true))
    ∧ (∀ r, archer_init username password session_token = .ok r →
        r.credentials.isSome = true ∨ truthyOpt r.sessionToken = true) := by
  constructor
  · unfold archer_init
    by_cases h1 : (truthyOpt username && truthyOpt password) = true
    · simp [h1]
    · by_cases h2 : truthyOpt session_token = true <;> simp [h1, h2]
  · intro r hr
    unfold archer_init at hr
    by_cases h1 : (truthyOpt username && truthyOpt password) = true
    · rw [if_pos h1] at hr
      cases hr
      left
      rfl
    · rw [if_neg h1] at hr
      by_cases h2 : truthyOpt session_token = true
      · simp [h2] at hr
        cases hr
        right
        exact h2
      · simp [h2] at hr
  
/-- C10 witness: a concrete successful construction from a
username/password pair and no session token has stored credentials. -/
theorem archer_init_c10_witness :
    (⟨some ⟨"u", "p"⟩, none⟩ : InitState).credentials.isSome = true ∨
      truthyOpt ((⟨some ⟨"u", "p"⟩, none⟩ : InitState).sessionToken) = true :=
  (archer_init_c10 (some "u") (some "p") none).2 ⟨some ⟨"u", "p"⟩, none⟩ rfl

/-- C7 counterexample: with system_prompt at its None default, call_llm
builds a single-message payload, not the two-message payload the claim
states. -/
theorem call_llm_two_messages_counterexample :
    call_llm_messages "hi" none = [⟨"user", "hi"⟩] ∧
      (call_llm_messages "hi" none).length ≠ 2 := by
  refine ⟨rfl, by decide⟩

/-- C7 amended: when a truthy system_prompt is supplied the payload is
the system message followed by the user prompt; when system_prompt is
None or empty the payload is the single user message; in every case the
returned string is the content of the first choice of the model's
response. -/
theorem call_llm_c7 (prompt : String) (system_prompt : Option String)
    (complete : List ChatMessage → LLMResponse) :
    (∀ sp, system_prompt = some sp → sp ≠ "" →
      call_llm_messages prompt system_prompt =
        [⟨"system", sp⟩, ⟨"user", prompt⟩])
    ∧ ((system_prompt = none ∨ system_prompt = some "") →
        call_llm_messages prompt system_prompt = [⟨"user", prompt⟩])
    ∧ (∀ c rest,
        (complete (call_llm_messages prompt system_prompt)).choices =
          c :: rest →
        call_llm prompt system_prompt complete = some c.message.content) := by
  refine ⟨?_, ?_, ?_⟩
  · intro sp hsp hne
    subst hsp
    simp [call_llm_messages, hne]
  · intro h
    rcases h with h | h <;> subst h <;> simp [call_llm_messages]
  · intro c rest h
    unfold call_llm
    rw [h]

/-- C7 witness: concrete payloads for a truthy and an empty system
prompt, and the first choice's text returned. -/
theorem call_llm_c7_witness :
    call_llm_messages "p" (some "s") = [⟨"system", "s"⟩, ⟨"user", "p"⟩] ∧
    call_llm_messages "p" (some "") = [⟨"user", "p"⟩] ∧
    call_llm "p" (some "s") (fun _ => ⟨[⟨⟨"out"⟩⟩]⟩) = some "out" :=
  ⟨(call_llm_c7 "p" (some "s") (fun _ => ⟨[⟨⟨"out"⟩⟩]⟩)).1 "s" rfl (by decide),
   (call_llm_c7 "p" (some "") (fun _ => ⟨[⟨⟨"out"⟩⟩]⟩)).2.1 (Or.inr rfl),
   (call_llm_c7 "p" (some "s") (fun _ => ⟨[⟨⟨"out"⟩⟩]⟩)).2.2 ⟨⟨"out"⟩⟩ [] rfl⟩

/-- C2: get_group_id, get_vl_id_by_field_name and
get_record_id_by_unique_value raise their named not-found error exactly
when the key is absent from their cache, return the cached value
otherwise, and leave the client state unchanged. -/
theorem missing_lookup_c2 (st : ClientState)
    (name fieldName keyValue : String) :
    ((get_group_id st name).2 = st ∧
      ((get_group_id st name).1 = .error .groupNotFound ↔
        dlookup st.groupsNameToId name = none) ∧
      (∀ i, dlookup st.groupsNameToId name = some i →
        (get_group_id st name).1 = .ok i))
    ∧ ((get_vl_id_by_field_name st fieldName).2 = st ∧
      ((get_vl_id_by_field_name st fieldName).1 = .error .fieldNotFound ↔
        dlookup st.vlNameToVlId fieldName = none) ∧
      (∀ i, dlookup st.vlNameToVlId fieldName = some i →
        (get_vl_id_by_field_name st fieldName).1 = .ok i))
    ∧ ((get_record_id_by_unique_value st keyValue).2 = st ∧
      ((get_record_id_by_unique_value st keyValue).1 =
          .error .recordNotFound ↔
        dlookup st.keyFieldValueToSystemId keyValue = none) ∧
      (∀ v, dlookup st.keyFieldValueToSystemId keyValue = some v →
        (get_record_id_by_unique_value st keyValue).1 = .ok v)) := by
  refine ⟨⟨?_, ?_, ?_⟩, ⟨?_, ?_, ?_⟩, ⟨?_, ?_, ?_⟩⟩
  · unfold get_group_id
    cases dlookup st.groupsNameToId name <;> rfl
  · unfold get_group_id
    cases h : dlookup st.groupsNameToId name <;> simp
  · intro i h
    unfold get_group_id
    rw [h]
  · unfold get_vl_id_by_field_name
    cases dlookup st.vlNameToVlId fieldName <;> rfl
  · unfold get_vl_id_by_field_name
    cases h : dlookup st.vlNameToVlId fieldName <;> simp
  · intro i h
    unfold get_vl_id_by_field_name
    rw [h]
  · unfold get_record_id_by_unique_value
    cases dlookup st.keyFieldValueToSystemId keyValue <;> rfl
  · unfold get_record_id_by_unique_value
    cases h : dlookup st.keyFieldValueToSystemId keyValue <;> simp
  · intro v h
    unfold get_record_id_by_unique_value
    rw [h]

/-- C2 witness: on a concrete cache the three lookups return the cached
values. -/
theorem missing_lookup_c2_witness :
    (get_group_id ⟨"", [], [], [("V", 3)], [], [("k", JVal.int 9)],
        [("G", 5)]⟩ "G").1 = .ok 5 ∧
    (get_vl_id_by_field_name ⟨"", [], [], [("V", 3)], [],
        [("k", JVal.int 9)], [("G", 5)]⟩ "V").1 = .ok 3 ∧
    (get_record_id_by_unique_value ⟨"", [], [], [("V", 3)], [],
        [("k", JVal.int 9)], [("G", 5)]⟩ "k").1 = .ok (JVal.int 9) :=
  ⟨(missing_lookup_c2 ⟨"", [], [], [("V", 3)], [], [("k", JVal.int 9)],
      [("G", 5)]⟩ "G" "V" "k").1.2.2 5 rfl,
   (missing_lookup_c2 ⟨"", [], [], [("V", 3)], [], [("k", JVal.int 9)],
      [("G", 5)]⟩ "G" "V" "k").2.1.2.2 3 rfl,
   (missing_lookup_c2 ⟨"", [], [], [("V", 3)], [], [("k", JVal.int 9)],
      [("G", 5)]⟩ "G" "V" "k").2.2.2.2 (JVal.int 9) rfl⟩

/-- C5 counterexample: find_group matches by substring, not exact
equality: with the single cached name "ab", the query "a" succeeds and
returns "ab", although no cached name equals "a" (the claim would
require GroupNotFoundError here). -/
theorem find_group_exact_counterexample :
    find_group ⟨"", [], [], [], [], [], [("ab", 1)]⟩ "a" = .ok ["ab"] ∧
      ("ab" : String) ≠ "a" := by
  refine ⟨rfl, by decide⟩

/-- C5 amended: for a non-empty query, find_group returns exactly the
cached group names that contain the query as a substring (raising
GroupNotFoundError when none does), and get_group_id succeeds only on a
cache binding whose key is exactly the query. -/
theorem find_group_c5 (st : ClientState) (name : String) (hne : name ≠ "") :
    (∀ l, find_group st name = .ok l →
      ∀ g, g ∈ l ↔
        (g ∈ st.groupsNameToId.map Prod.fst ∧ strContains g name = true))
    ∧ (find_group st name = .error .groupNotFound ↔
        ∀ g ∈ st.groupsNameToId.map Prod.fst, ¬strContains g name = true)
    ∧ (∀ i, (get_group_id st name).1 = .ok i →
        (name, i) ∈ st.groupsNameToId) := by
  refine ⟨?_, ?_, ?_⟩
  · intro l hl g
    unfold find_group at hl
    rw [if_neg hne] at hl
    by_cases hf : (st.groupsNameToId.map Prod.fst).filter
        (fun g => strContains g name) = []
    · simp [hf] at hl
    · rw [if_neg hf] at hl
      cases hl
      exact List.mem_filter
  · unfold find_group
    rw [if_neg hne]
    by_cases hf : (st.groupsNameToId.map Prod.fst).filter
        (fun g => strContains g name) = []
    · rw [if_pos hf]
      simp only [true_iff]
      exact fun g hg => (List.filter_eq_nil_iff.mp hf) g hg
    · rw [if_neg hf]
      constructor
      · intro h; cases h
      · intro h
        exact absurd (List.filter_eq_nil_iff.mpr h) hf
  · intro i h
    unfold get_group_id at h
    cases hk : dlookup st.groupsNameToId name with
    | none => rw [hk] at h; cases h
    | some j =>
      rw [hk] at h
      cases h
      exact dlookup_mem hk

/-- C5 witness: on a cache holding only "ab", the query "ab" returns a
list on which the membership characterisation holds for "ab", and
get_group_id's exact hit is a cache member. -/
theorem find_group_c5_witness :
    ("ab" ∈ ["ab"] ↔
      ("ab" ∈ ([("ab", 1)] : List (String × Int)).map Prod.fst ∧
        strContains "ab" "ab" = true)) ∧
    ("ab", 1) ∈ ([("ab", 1)] : List (String × Int)) :=
  ⟨(find_group_c5 ⟨"", [], [], [], [], [], [("ab", 1)]⟩ "ab"
      (by decide)).1 ["ab"] rfl "ab",
   (find_group_c5 ⟨"", [], [], [], [], [], [("ab", 1)]⟩ "ab"
      (by decide)).2.2 1 rfl⟩

/-- C6 counterexample: with a subform name absent from
subforms_json_by_sf_name, get_sub_record fails with an untranslated
KeyError, which is none of the named not-found errors. -/
theorem get_sub_record_counterexample :
    get_sub_record ⟨"", [], [], [], [], [], []⟩ 7 "X"
        (fun _ => ⟨200, JVal.null⟩) = (.error .keyError, []) ∧
      PyErr.keyError.isNamedNotFound = false :=
  ⟨rfl, rfl⟩

/-- C6 amended: create_sub_record validates the subform name only
against application_fields_json, raising FieldNotFoundError (and issuing
no request) when it is absent there; a subform name present in
application_fields_json but absent from subforms_json_by_sf_name makes
create_sub_record fail with an untranslated KeyError; and get_sub_record
performs no validation at all, failing with an untranslated KeyError for
every subform name absent from subforms_json_by_sf_name. -/
theorem sub_record_c6 (st : ClientState) (fields : List (String × JVal))
    (sf : String) (recId : Int) (respond1 : SubRecordRequest → Response)
    (respond2 : FieldContentRequest → Response) :
    (dlookup st.appFieldNameToId sf = none →
      create_sub_record st fields sf respond1 = (.error .fieldNotFound, []))
    ∧ (∀ i, dlookup st.appFieldNameToId sf = some i →
        dlookup st.subforms sf = none →
        create_sub_record st fields sf respond1 = (.error .keyError, []))
    ∧ (dlookup st.subforms sf = none →
        get_sub_record st recId sf respond2 = (.error .keyError, [])) := by
  refine ⟨?_, ?_, ?_⟩
  · intro h
    unfold create_sub_record get_field_id_by_name
    rw [h]
  · intro i h1 h2
    unfold create_sub_record get_field_id_by_name
    rw [h1, h2]
  · intro h
    unfold get_sub_record
    rw [h]

/-- C6 witness: concrete instances of the three behaviours. -/
theorem sub_record_c6_witness :
    create_sub_record ⟨"", [], [], [], [], [], []⟩ [] "S"
        (fun _ => ⟨200, JVal.null⟩) = (.error .fieldNotFound, []) ∧
    create_sub_record ⟨"", [("S", 9)], [], [], [], [], []⟩ [] "S"
        (fun _ => ⟨200, JVal.null⟩) = (.error .keyError, []) ∧
    get_sub_record ⟨"", [], [], [], [], [], []⟩ 7 "S"
        (fun _ => ⟨200, JVal.null⟩) = (.error .keyError, []) :=
  ⟨(sub_record_c6 ⟨"", [], [], [], [], [], []⟩ [] "S" 7
      (fun _ => ⟨200, JVal.null⟩) (fun _ => ⟨200, JVal.null⟩)).1 rfl,
   (sub_record_c6 ⟨"", [("S", 9)], [], [], [], [], []⟩ [] "S" 7
      (fun _ => ⟨200, JVal.null⟩) (fun _ => ⟨200, JVal.null⟩)).2.1 9 rfl rfl,
   (sub_record_c6 ⟨"", [], [], [], [], [], []⟩ [] "S" 7
      (fun _ => ⟨200, JVal.null⟩) (fun _ => ⟨200, JVal.null⟩)).2.2 rfl⟩


/-- The pagination loop issues at most ceil((max_records - skip)/1000)
batch requests from any starting point, whatever the endpoint
responses. -/
theorem buildLoop_length_le (respond : Nat → GrcResponse) (max_records : Nat) :
    ∀ budget skip,
      (buildLoop respond max_records budget skip).2.length ≤
        (max_records - skip + 999) / 1000 := by
  intro budget
  induction budget with
  | zero =>
    intro skip
    rw [buildLoop]
    by_cases hlt : skip < max_records
    · rw [if_pos hlt]
      cases hf : get_grc_endpoint_records respond skip with
      | error e =>
        simp only [List.length_cons, List.length_nil]
        omega
      | ok batch =>
        simp only []
        by_cases hemp : batch.isEmpty
        · rw [if_pos hemp]
          simp only [List.length_cons, List.length_nil]
          omega
        · rw [if_neg hemp]
          by_cases hlen : batch.length = 1000
          · rw [if_pos hlen]
            simp only [List.length_cons, List.length_nil]
            omega
          · rw [if_neg hlen]
            simp only [List.length_cons, List.length_nil]
            omega
    · rw [if_neg hlt]
      simp
  | succ b ih =>
    intro skip
    rw [buildLoop]
    by_cases hlt : skip < max_records
    · rw [if_pos hlt]
      cases hf : get_grc_endpoint_records respond skip with
      | error e =>
        simp only [List.length_cons, List.length_nil]
        omega
      | ok batch =>
        simp only []
        by_cases hemp : batch.isEmpty
        · rw [if_pos hemp]
          simp only [List.length_cons, List.length_nil]
          omega
        · rw [if_neg hemp]
          by_cases hlen : batch.length = 1000
          · rw [if_pos hlen]
            cases hrec : buildLoop respond max_records b (skip + 1000) with
            | mk res ks =>
              have hks : ks.length ≤ (max_records - (skip + 1000) + 999) / 1000 := by
                have h := ih (skip + 1000)
                rw [hrec] at h
                exact h
              cases res <;> simp only [List.length_cons] <;> omega
          · rw [if_neg hlen]
            simp only [List.length_cons, List.length_nil]
            omega
    · rw [if_neg hlt]
      simp

/-- Every skip the pagination loop requests lies at or above the
starting skip and differs from it by a multiple of 1000. -/
theorem buildLoop_mem_skips (respond : Nat → GrcResponse) (max_records : Nat) :
    ∀ budget skip, ∀ k ∈ (buildLoop respond max_records budget skip).2,
      skip ≤ k ∧ (k - skip) % 1000 = 0 := by
  intro budget
  induction budget with
  | zero =>
    intro skip
    rw [buildLoop]
    by_cases hlt : skip < max_records
    · rw [if_pos hlt]
      cases hf : get_grc_endpoint_records respond skip with
      | error e =>
        intro k hk
        simp only [List.mem_singleton] at hk
        subst hk
        omega
      | ok batch =>
        simp only []
        by_cases hemp : batch.isEmpty
        · rw [if_pos hemp]
          intro k hk
          simp only [List.mem_singleton] at hk
          subst hk
          omega
        · rw [if_neg hemp]
          by_cases hlen : batch.length = 1000
          · rw [if_pos hlen]
            intro k hk
            simp only [List.mem_singleton] at hk
            subst hk
            omega
          · rw [if_neg hlen]
            intro k hk
            simp only [List.mem_singleton] at hk
            subst hk
            omega
    · rw [if_neg hlt]
      intro k hk
      simp at hk
  | succ b ih =>
    intro skip
    rw [buildLoop]
    by_cases hlt : skip < max_records
    · rw [if_pos hlt]
      cases hf : get_grc_endpoint_records respond skip with
      | error e =>
        intro k hk
        simp only [List.mem_singleton] at hk
        subst hk
        omega
      | ok batch =>
        simp only []
        by_cases hemp : batch.isEmpty
        · rw [if_pos hemp]
          intro k hk
          simp only [List.mem_singleton] at hk
          subst hk
          omega
        · rw [if_neg hemp]
          by_cases hlen : batch.length = 1000
          · rw [if_pos hlen]
            cases hrec : buildLoop respond max_records b (skip + 1000) with
            | mk res ks =>
              have hmem : ∀ k ∈ ks, skip + 1000 ≤ k ∧
                  (k - (skip + 1000)) % 1000 = 0 := by
                intro k hk
                exact ih (skip + 1000) k (by rw [hrec]; exact hk)
              cases res with
              | error e =>
                intro k hk
                simp only [List.mem_cons] at hk
                rcases hk with hk | hk
                · subst hk; omega
                · have := hmem k hk; omega
              | ok rest =>
                intro k hk
                simp only [List.mem_cons] at hk
                rcases hk with hk | hk
                · subst hk; omega
                · have := hmem k hk; omega
          · rw [if_neg hlen]
            intro k hk
            simp only [List.mem_singleton] at hk
            subst hk
            omega
    · rw [if_neg hlt]
      intro k hk
      simp at hk

/-- The skips the pagination loop requests are strictly increasing: no
batch request is ever repeated. -/
theorem buildLoop_skips_sorted (respond : Nat → GrcResponse) (max_records : Nat) :
    ∀ budget skip,
      List.Pairwise (· < ·) (buildLoop respond max_records budget skip).2 := by
  intro budget
  induction budget with
  | zero =>
    intro skip
    rw [buildLoop]
    by_cases hlt : skip < max_records
    · rw [if_pos hlt]
      cases hf : get_grc_endpoint_records respond skip with
      | error e => simp
      | ok batch =>
        simp only []
        by_cases hemp : batch.isEmpty
        · rw [if_pos hemp]; simp
        · rw [if_neg hemp]
          by_cases hlen : batch.length = 1000
          · rw [if_pos hlen]; simp
          · rw [if_neg hlen]; simp
    · rw [if_neg hlt]; simp
  | succ b ih =>
    intro skip
    rw [buildLoop]
    by_cases hlt : skip < max_records
    · rw [if_pos hlt]
      cases hf : get_grc_endpoint_records respond skip with
      | error e => simp
      | ok batch =>
        simp only []
        by_cases hemp : batch.isEmpty
        · rw [if_pos hemp]; simp
        · rw [if_neg hemp]
          by_cases hlen : batch.length = 1000
          · rw [if_pos hlen]
            cases hrec : buildLoop respond max_records b (skip + 1000) with
            | mk res ks =>
              have hsorted : List.Pairwise (· < ·) ks := by
                have h := ih (skip + 1000)
                rw [hrec] at h
                exact h
              have hlo : ∀ k ∈ ks, skip < k := by
                intro k hk
                have := buildLoop_mem_skips respond max_records b (skip + 1000)
                  k (by rw [hrec]; exact hk)
                omega
              cases res with
              | error e => exact List.Pairwise.cons hlo hsorted
              | ok rest => exact List.Pairwise.cons hlo hsorted
          · rw [if_neg hlen]; simp
    · rw [if_neg hlt]; simp

/-- The request log of build_unique_value_to_id_mapping is exactly the
skips its pagination loop requested, starting at skip 0 with the full
budget. -/
theorem build_unique_requests_eq (st : ClientState)
    (respond : Nat → GrcResponse) (endpoint_url key_value_field pre : String)
    (max_records : Nat) :
    (build_unique_value_to_id_mapping st respond endpoint_url
        key_value_field pre max_records).2.2 =
      (buildLoop respond max_records 21 0).2 := by
  unfold build_unique_value_to_id_mapping
  cases h : buildLoop respond max_records 21 0 with
  | mk res ks =>
    cases res with
    | error e => rfl
    | ok allRecords =>
      cases mapRecords endpoint_url key_value_field pre allRecords
          st.keyFieldValueToSystemId with
      | mk e m => rfl

/-- C3: build_unique_value_to_id_mapping fetches batches sequentially
starting at skip 0 in steps of 1000 (every requested skip is a multiple
of 1000) and always terminates after a bounded number of batch requests:
for every possible sequence of endpoint responses it issues at most
ceil(max_records / 1000) batch requests, hence at most 22 for the
default max_records of 22000. -/
theorem pagination_bound_c3 (st : ClientState) (respond : Nat → GrcResponse)
    (endpoint_url key_value_field pre : String) (max_records : Nat) :
    ((build_unique_value_to_id_mapping st respond endpoint_url
        key_value_field pre max_records).2.2.length ≤
      (max_records + 999) / 1000)
    ∧ (∀ k ∈ (build_unique_value_to_id_mapping st respond endpoint_url
        key_value_field pre max_records).2.2, k % 1000 = 0)
    ∧ ((build_unique_value_to_id_mapping st respond endpoint_url
        key_value_field pre 22000).2.2.length ≤ 22) := by
  refine ⟨?_, ?_, ?_⟩
  · rw [build_unique_requests_eq]
    have h := buildLoop_length_le respond max_records 21 0
    simpa using h
  · rw [build_unique_requests_eq]
    intro k hk
    have := buildLoop_mem_skips respond max_records 21 0 k hk
    omega
  · rw [build_unique_requests_eq]
    have h := buildLoop_length_le respond 22000 21 0
    simpa using h

/-- Keys untouched by the mapping-building fold keep their previous
lookup value (also when the fold aborts on a KeyError). -/
theorem mapRecords_lookup_untouched (url kf pre : String) :
    ∀ (recs : List JObj) (acc : List (String × JVal)) (k : String),
      (∀ r ∈ recs, ∀ v, dlookup r kf = some v → pre ++ pyStr v ≠ k) →
      dlookup (mapRecords url kf pre recs acc).2 k = dlookup acc k := by
  intro recs
  induction recs with
  | nil => intro acc k h; rfl
  | cons r rs ih =>
    intro acc k h
    rw [mapRecords]
    cases hv : dlookup r kf with
    | none =>
      exact ih acc k (fun r' hr' => h r' (List.mem_cons_of_mem _ hr'))
    | some v =>
      cases hsid : dlookup r (url ++ "_Id") with
      | none => rfl
      | some sid =>
        have hk : pre ++ pyStr v ≠ k := h r (List.mem_cons_self _ _) v hv
        rw [ih (acc ++ [(pre ++ pyStr v, sid)]) k
          (fun r' hr' => h r' (List.mem_cons_of_mem _ hr'))]
        rw [dlookup_append]
        simp [dlookup, hk]

/-- When the mapping-building fold completes without error, a record
carrying the key field whose rendered key no later record produces ends
up mapped to its own system id (later records overwrite earlier ones). -/
theorem mapRecords_last_wins (url kf pre : String) :
    ∀ (l₁ : List JObj) (r : JObj) (l₂ : List JObj)
      (acc : List (String × JVal)) (v sid : JVal),
      dlookup r kf = some v →
      dlookup r (url ++ "_Id") = some sid →
      (∀ r' ∈ l₂, ∀ v', dlookup r' kf = some v' →
        pre ++ pyStr v' ≠ pre ++ pyStr v) →
      (mapRecords url kf pre (l₁ ++ r :: l₂) acc).1 = none →
      dlookup (mapRecords url kf pre (l₁ ++ r :: l₂) acc).2
        (pre ++ pyStr v) = some sid := by
  intro l₁
  induction l₁ with
  | nil =>
    intro r l₂ acc v sid hv hsid hlater herr
    simp only [List.nil_append] at herr ⊢
    rw [mapRecords] at herr ⊢
    rw [hv, hsid] at herr ⊢
    simp only [] at herr ⊢
    rw [mapRecords_lookup_untouched url kf pre l₂ _ _ hlater]
    rw [dlookup_append]
    simp [dlookup]
  | cons p l₁ ih =>
    intro r l₂ acc v sid hv hsid hlater herr
    simp only [List.cons_append] at herr ⊢
    rw [mapRecords] at herr ⊢
    cases hpv : dlookup p kf with
    | none =>
      simp only [hpv] at herr ⊢
      exact ih r l₂ acc v sid hv hsid hlater herr
    | some pv =>
      cases hpsid : dlookup p (url ++ "_Id") with
      | none =>
        simp only [hpv, hpsid] at herr
        simp at herr
      | some psid =>
        simp only [hpv, hpsid] at herr ⊢
        exact ih r l₂ _ v sid hv hsid hlater herr

/-- C4: after a successful build_unique_value_to_id_mapping, every
gathered record carrying the key_value_field whose rendered key (prefix
concatenated with the str() of the value) is not produced again by a
later gathered record is mapped to its own "{endpoint_url}_Id" value
(later records overwrite earlier ones on duplicate keys), and every key
not produced by any gathered record keeps its previous mapping (records
lacking the key field contribute nothing). -/
theorem accumulation_c4 (st : ClientState) (respond : Nat → GrcResponse)
    (endpoint_url key_value_field pre : String) (max_records : Nat)
    (st' : ClientState) (ks : List Nat)
    (hok : build_unique_value_to_id_mapping st respond endpoint_url
      key_value_field pre max_records = (none, st', ks)) :
    (∀ l₁ r l₂ v sid,
      (buildLoop respond max_records 21 0).1 = .ok (l₁ ++ r :: l₂) →
      dlookup r key_value_field = some v →
      dlookup r (endpoint_url ++ "_Id") = some sid →
      (∀ r' ∈ l₂, ∀ v', dlookup r' key_value_field = some v' →
        pre ++ pyStr v' ≠ pre ++ pyStr v) →
      dlookup st'.keyFieldValueToSystemId (pre ++ pyStr v) = some sid)
    ∧ (∀ k : String,
      (∀ gathered, (buildLoop respond max_records 21 0).1 = .ok gathered →
        ∀ r ∈ gathered, ∀ v, dlookup r key_value_field = some v →
          pre ++ pyStr v ≠ k) →
      dlookup st'.keyFieldValueToSystemId k =
        dlookup st.keyFieldValueToSystemId k) := by
  unfold build_unique_value_to_id_mapping at hok
  cases hbl : buildLoop respond max_records 21 0 with
  | mk res ks0 =>
    rw [hbl] at hok
    cases res with
    | error e => simp at hok
    | ok allRecords =>
      simp only [] at hok
      cases hmr : mapRecords endpoint_url key_value_field pre allRecords
          st.keyFieldValueToSystemId with
      | mk e m =>
        rw [hmr] at hok
        simp only [Prod.mk.injEq] at hok
        obtain ⟨he, hst, hks⟩ := hok
        subst he
        constructor
        · intro l₁ r l₂ v sid hg hv hsid hlater
          simp only [] at hg
          injection hg with hg
          subst hg
          have hlw := mapRecords_last_wins endpoint_url key_value_field pre
            l₁ r l₂ st.keyFieldValueToSystemId v sid hv hsid hlater
            (by rw [hmr])
          rw [hmr] at hlw
          rw [← hst]
          exact hlw
        · intro k hk
          have hnone := hk allRecords rfl
          have hu := mapRecords_lookup_untouched endpoint_url key_value_field
            pre allRecords st.keyFieldValueToSystemId k hnone
          rw [hmr] at hu
          rw [← hst]
          exact hu

/-- Concrete endpoint record used to evaluate the pagination claims. -/
def exRec : JObj := [("K", JVal.str "x"), ("ep_Id", JVal.int 5)]

/-- Concrete endpoint oracle: one short batch at every skip. -/
def exResp : Nat → GrcResponse := fun _ => ⟨200, some [exRec]⟩

/-- Concrete client state with one pre-existing mapping entry. -/
def exSt : ClientState := ⟨"", [], [], [], [], [("old", JVal.int 1)], []⟩

/-- The client state after running the mapping build on `exSt`. -/
def exStAfter : ClientState :=
  ⟨"", [], [], [], [], [("old", JVal.int 1), ("Px", JVal.int 5)], []⟩

/-- C4 witness: on the concrete run the gathered record's rendered key
maps to its system id and an unrelated key keeps its previous value. -/
theorem accumulation_c4_witness :
    dlookup exStAfter.keyFieldValueToSystemId
      ("P" ++ pyStr (JVal.str "x")) = some (JVal.int 5) ∧
    dlookup exStAfter.keyFieldValueToSystemId "zz" =
      dlookup exSt.keyFieldValueToSystemId "zz" :=
  ⟨(accumulation_c4 exSt exResp "ep" "K" "P" 500 exStAfter [0] rfl).1
      [] exRec [] (JVal.str "x") (JVal.int 5) rfl rfl rfl
      (fun r' hr' => absurd hr' (List.not_mem_nil r')),
   (accumulation_c4 exSt exResp "ep" "K" "P" 500 exStAfter [0] rfl).2 "zz"
      (by
        intro gathered hg r hr v hv
        have h0 : (buildLoop exResp 500 21 0).1 = Except.ok [exRec] := rfl
        rw [h0] at hg
        injection hg with hg
        subst hg
        simp only [List.mem_singleton] at hr
        subst hr
        have h1 : dlookup exRec "K" = some (JVal.str "x") := rfl
        rw [h1] at hv
        injection hv with hv
        subst hv
        decide)⟩

/-- Well-formedness of the application field cache as established by
get_application_fields (lines 456-461 of the source set the name binding
and the id metadata together): every cached name's id carries metadata. -/
def cacheWF (st : ClientState) : Prop :=
  ∀ p ∈ st.appFieldNameToId, (dlookup st.appFieldIdToMeta p.2).isSome = true

/-- One unfolding step of the substitution loop. -/
theorem transformFields_cons (st : ClientState) (n : String) (v : JVal)
    (rest : List (String × JVal)) :
    transformFields st ((n, v) :: rest) =
      match dlookup st.appFieldNameToId n with
      | none => .error .fieldNotFound
      | some fid =>
        match dlookup st.appFieldIdToMeta fid with
        | none => .error .keyError
        | some m =>
          match transformFields st rest with
          | .error e => .error e
          | .ok tail => .ok ((fid, ⟨m.type, m.fieldId, v⟩) :: tail) := by
  rw [transformFields]
  unfold get_field_id_by_name prepare_field_value
  cases dlookup st.appFieldNameToId n with
  | none => rfl
  | some fid =>
    simp only []
    cases dlookup st.appFieldIdToMeta fid with
    | none => rfl
    | some m =>
      cases transformFields st rest with
      | error e => rfl
      | ok tail => rfl

/-- On a well-formed cache, the substitution loop fails with
FieldNotFoundError whenever some field name is absent from the cache. -/
theorem transformFields_absent (st : ClientState) (hwf : cacheWF st) :
    ∀ fields : List (String × JVal),
      (∃ p ∈ fields, dlookup st.appFieldNameToId p.1 = none) →
      transformFields st fields = .error .fieldNotFound := by
  intro fields
  induction fields with
  | nil =>
    rintro ⟨p, hp, _⟩
    cases hp
  | cons q rest ih =>
    rintro ⟨p, hp, habs⟩
    obtain ⟨n, v⟩ := q
    rw [transformFields_cons]
    cases hn : dlookup st.appFieldNameToId n with
    | none => rfl
    | some fid =>
      simp only []
      rcases List.mem_cons.mp hp with hq | hq
      · subst hq
        simp only [] at habs
        rw [hn] at habs
        cases habs
      · have hmeta := hwf (n, fid) (dlookup_mem hn)
        cases hm : dlookup st.appFieldIdToMeta fid with
        | none => simp [hm] at hmeta
        | some m =>
          simp only []
          rw [ih ⟨p, hq, habs⟩]

/-- On a well-formed cache, the substitution loop succeeds when every
field name is cached. -/
theorem transformFields_all_present (st : ClientState) (hwf : cacheWF st) :
    ∀ fields : List (String × JVal),
      (∀ p ∈ fields, (dlookup st.appFieldNameToId p.1).isSome = true) →
      ∃ t, transformFields st fields = .ok t := by
  intro fields
  induction fields with
  | nil => intro _; exact ⟨[], rfl⟩
  | cons q rest ih =>
    intro hall
    obtain ⟨n, v⟩ := q
    rw [transformFields_cons]
    cases hn : dlookup st.appFieldNameToId n with
    | none =>
      have h := hall (n, v) (List.mem_cons_self _ _)
      simp [hn] at h
    | some fid =>
      simp only []
      have hmeta := hwf (n, fid) (dlookup_mem hn)
      cases hm : dlookup st.appFieldIdToMeta fid with
      | none => simp [hm] at hmeta
      | some m =>
        simp only []
        obtain ⟨t, ht⟩ := ih (fun p hp => hall p (List.mem_cons_of_mem _ hp))
        rw [ht]
        exact ⟨(fid, ⟨m.type, m.fieldId, v⟩) :: t, rfl⟩

/-- Every key of the substituted FieldContents is the cache-assigned id
of some input field name. -/
theorem transformFields_keys (st : ClientState) :
    ∀ (fields : List (String × JVal)) (t : List (Int × FieldEntry)),
      transformFields st fields = .ok t →
      ∀ e ∈ t, ∃ p ∈ fields, dlookup st.appFieldNameToId p.1 = some e.1 := by
  intro fields
  induction fields with
  | nil =>
    intro t ht e he
    rw [transformFields] at ht
    injection ht with ht
    subst ht
    cases he
  | cons q rest ih =>
    intro t ht e he
    obtain ⟨n, v⟩ := q
    rw [transformFields_cons] at ht
    cases hn : dlookup st.appFieldNameToId n with
    | none =>
      rw [hn] at ht
      simp at ht
    | some fid =>
      rw [hn] at ht
      simp only [] at ht
      cases hm : dlookup st.appFieldIdToMeta fid with
      | none =>
        rw [hm] at ht
        simp at ht
      | some m =>
        rw [hm] at ht
        simp only [] at ht
        cases htail : transformFields st rest with
        | error e2 =>
          rw [htail] at ht
          simp at ht
        | ok tail =>
          rw [htail] at ht
          simp only [] at ht
          injection ht with ht
          subst ht
          rcases List.mem_cons.mp he with he | he
          · subst he
            exact ⟨(n, v), List.mem_cons_self _ _, hn⟩
          · obtain ⟨p, hp, hpl⟩ := ih tail htail e he
            exact ⟨p, List.mem_cons_of_mem _ hp, hpl⟩

/-- The substituted FieldContents maps each cache-assigned field id to
the cached metadata extended with the caller-supplied value, provided
the input names are distinct and are assigned distinct ids. -/
theorem transformFields_lookup (st : ClientState) :
    ∀ (fields : List (String × JVal)) (t : List (Int × FieldEntry)),
      transformFields st fields = .ok t →
      (fields.map Prod.fst).Nodup →
      (∀ p q, p ∈ fields → q ∈ fields →
        dlookup st.appFieldNameToId p.1 = dlookup st.appFieldNameToId q.1 →
        p.1 = q.1) →
      ∀ n v fid m, (n, v) ∈ fields →
        dlookup st.appFieldNameToId n = some fid →
        dlookup st.appFieldIdToMeta fid = some m →
        dlookup t fid = some ⟨m.type, m.fieldId, v⟩ := by
  intro fields
  induction fields with
  | nil =>
    intro t ht hnd hinj n v fid m hmem
    cases hmem
  | cons q rest ih =>
    intro t ht hnd hinj n v fid m hmem hn hm
    obtain ⟨n0, v0⟩ := q
    rw [transformFields_cons] at ht
    cases hn0 : dlookup st.appFieldNameToId n0 with
    | none =>
      rw [hn0] at ht
      simp at ht
    | some fid0 =>
      rw [hn0] at ht
      simp only [] at ht
      cases hm0 : dlookup st.appFieldIdToMeta fid0 with
      | none =>
        rw [hm0] at ht
        simp at ht
      | some m0 =>
        rw [hm0] at ht
        simp only [] at ht
        cases htail : transformFields st rest with
        | error e2 =>
          rw [htail] at ht
          simp at ht
        | ok tail =>
          rw [htail] at ht
          simp only [] at ht
          injection ht with ht
          subst ht
          have hnd2 : (∀ x, (n0, x) ∉ rest) ∧ (rest.map Prod.fst).Nodup := by
            simpa using hnd
          rcases List.mem_cons.mp hmem with hq | hq
          · injection hq with h1 h2
            subst h1
            subst h2
            rw [hn] at hn0
            injection hn0 with hfid
            subst hfid
            rw [hm] at hm0
            injection hm0 with hmeq
            subst hmeq
            have htnone : dlookup tail fid = none := by
              rw [dlookup_eq_none]
              intro e he hkey
              obtain ⟨p, hp, hpl⟩ := transformFields_keys st rest tail htail e he
              have hpn : p.1 = n := hinj p (n, v)
                (List.mem_cons_of_mem _ hp) (List.mem_cons_self _ _)
                (by rw [hpl, hkey, hn])
              exact hnd2.1 p.2 (by rw [← hpn]; exact hp)
            simp [dlookup, htnone]
          · have hres := ih tail htail hnd2.2
              (fun p q hp hq' h => hinj p q (List.mem_cons_of_mem _ hp)
                (List.mem_cons_of_mem _ hq') h)
              n v fid m hq hn hm
            simp [dlookup, hres]

/-- A failed substitution aborts create_content_record before any
request is issued. -/
theorem create_content_record_error (st : ClientState)
    (fields_json : List (String × JVal)) (record_id : Option Int)
    (respond : ContentRequest → Response) (e : PyErr)
    (he : transformFields st fields_json = .error e) :
    create_content_record st fields_json record_id respond =
      (.error e, []) := by
  unfold create_content_record
  rw [he]

/-- A successful substitution makes create_content_record issue exactly
one request, whose FieldContents is the substituted object. -/
theorem create_content_record_ok_requests (st : ClientState)
    (fields_json : List (String × JVal)) (record_id : Option Int)
    (respond : ContentRequest → Response) (t : List (Int × FieldEntry))
    (ht : transformFields st fields_json = .ok t) :
    (create_content_record st fields_json record_id respond).2.length = 1 ∧
    ∀ req ∈ (create_content_record st fields_json record_id respond).2,
      req.fieldContents = t := by
  unfold create_content_record
  rw [ht]
  simp only []
  constructor
  · repeat' split
    all_goals rfl
  · intro req hreq
    repeat' split at hreq
    all_goals (simp only [List.mem_singleton] at hreq; subst hreq; rfl)

/-- C1: on a well-formed field cache (as populated by
get_application_fields), create_content_record substitutes field names
by their cache-assigned numeric ids prior to request submission: if any
field name of fields_json is absent from application_fields_json,
FieldNotFoundError is raised and no HTTP request is issued; when every
name is cached, exactly one request is submitted and its FieldContents
maps each cache-assigned field id to the cached metadata (its "Type" and
"FieldId") extended with a "Value" key holding the caller-supplied value
(the names being distinct, as Python dict keys are, and assigned
distinct ids). -/
theorem create_content_record_c1 (st : ClientState)
    (fields_json : List (String × JVal)) (record_id : Option Int)
    (respond : ContentRequest → Response) (hwf : cacheWF st) :
    ((∃ p ∈ fields_json, dlookup st.appFieldNameToId p.1 = none) →
      create_content_record st fields_json record_id respond =
        (.error .fieldNotFound, []))
    ∧ ((∀ p ∈ fields_json, (dlookup st.appFieldNameToId p.1).isSome = true) →
      (create_content_record st fields_json record_id respond).2.length = 1)
    ∧ ((fields_json.map Prod.fst).Nodup →
      (∀ p q, p ∈ fields_json → q ∈ fields_json →
        dlookup st.appFieldNameToId p.1 = dlookup st.appFieldNameToId q.1 →
        p.1 = q.1) →
      ∀ req ∈ (create_content_record st fields_json record_id respond).2,
        ∀ n v fid m, (n, v) ∈ fields_json →
          dlookup st.appFieldNameToId n = some fid →
          dlookup st.appFieldIdToMeta fid = some m →
          dlookup req.fieldContents fid = some ⟨m.type, m.fieldId, v⟩) := by
  refine ⟨?_, ?_, ?_⟩
  · intro habs
    exact create_content_record_error st fields_json record_id respond _
      (transformFields_absent st hwf fields_json habs)
  · intro hall
    obtain ⟨t, ht⟩ := transformFields_all_present st hwf fields_json hall
    exact (create_content_record_ok_requests st fields_json record_id
      respond t ht).1
  · intro hnd hinj req hreq n v fid m hmem hn hm
    cases htr : transformFields st fields_json with
    | error e =>
      rw [create_content_record_error st fields_json record_id respond e htr]
        at hreq
      simp at hreq
    | ok t =>
      have hfc := (create_content_record_ok_requests st fields_json record_id
        respond t htr).2 req hreq
      rw [hfc]
      exact transformFields_lookup st fields_json t htr hnd hinj n v fid m
        hmem hn hm

/-- Concrete application-field cache: one field "A" with id 7, type 1. -/
def exStC1 : ClientState := ⟨"L", [("A", 7)], [(7, ⟨1, 7⟩)], [], [], [], []⟩

/-- Concrete content oracle answering 200 with a record id. -/
def exRespC1 : ContentRequest → Response := fun _ =>
  ⟨200, JVal.obj [("RequestedObject", JVal.obj [("Id", JVal.int 42)])]⟩

/-- The request create_content_record submits on `exStC1`. -/
def exReqC1 : ContentRequest :=
  ⟨"POST", none, "L", [(7, ⟨1, 7, JVal.str "x"⟩)]⟩

/-- C1 witness: on the concrete cache, one request is issued and its
FieldContents carries the cached metadata of field "A" extended with the
supplied value, keyed by the assigned id 7. -/
theorem create_content_record_c1_witness :
    (create_content_record exStC1 [("A", JVal.str "x")] none
      exRespC1).2.length = 1 ∧
    dlookup exReqC1.fieldContents 7 = some ⟨1, 7, JVal.str "x"⟩ :=
  ⟨(create_content_record_c1 exStC1 [("A", JVal.str "x")] none exRespC1
      (by unfold cacheWF; decide)).2.1 (by decide),
   (create_content_record_c1 exStC1 [("A", JVal.str "x")] none exRespC1
      (by unfold cacheWF; decide)).2.2 (by decide)
      (by
        intro p q hp hq _
        simp only [List.mem_singleton] at hp hq
        subst hp
        subst hq
        rfl)
      exReqC1 (by exact List.mem_singleton.mpr rfl) "A" (JVal.str "x") 7
      ⟨1, 7⟩ (by exact List.mem_singleton.mpr rfl) rfl rfl⟩

/-- A raised result is a network error exactly when it is the
networkError constructor. -/
theorem isNetworkError_iff {α : Type} (x : Except PyErr α) :
    isNetworkError x = true ↔ x = .error .networkError := by
  cases x with
  | ok a => simp [isNetworkError]
  | error e => cases e <;> simp [isNetworkError]

/-- The retry policy at 3 attempts: between 1 and 3 attempts are made at
consecutive indices from 0, every attempt before the last raised a
network error, and the overall result is the last attempt's outcome
(success, translated error, or the reraised final network error). -/
theorem runWithRetry_three {α : Type} (f : Nat → Except PyErr α) :
    (1 ≤ (runWithRetry f 3 0).2.length ∧ (runWithRetry f 3 0).2.length ≤ 3)
    ∧ (runWithRetry f 3 0).2 = List.range (runWithRetry f 3 0).2.length
    ∧ (∀ j, j + 1 < (runWithRetry f 3 0).2.length →
        f j = .error .networkError)
    ∧ (runWithRetry f 3 0).1 = f ((runWithRetry f 3 0).2.length - 1) := by
  by_cases h0 : isNetworkError (f 0) = true
  · by_cases h1 : isNetworkError (f 1) = true
    · have e : runWithRetry f 3 0 = (f 2, [0, 1, 2]) := by
        simp [runWithRetry, h0, h1]
      rw [e]
      refine ⟨by simp, by simp [List.range_succ], ?_, by simp⟩
      intro j hj
      simp only [List.length_cons, List.length_nil] at hj
      match j, hj with
      | 0, _ => exact (isNetworkError_iff (f 0)).mp h0
      | 1, _ => exact (isNetworkError_iff (f 1)).mp h1
    · have e : runWithRetry f 3 0 = (f 1, [0, 1]) := by
        simp [runWithRetry, h0, h1]
      rw [e]
      refine ⟨by simp, by simp [List.range_succ], ?_, by simp⟩
      intro j hj
      simp only [List.length_cons, List.length_nil] at hj
      match j, hj with
      | 0, _ => exact (isNetworkError_iff (f 0)).mp h0
  · have e : runWithRetry f 3 0 = (f 0, [0]) := by
      simp [runWithRetry, h0]
    rw [e]
    refine ⟨by simp, by simp [List.range_succ], ?_, ?_⟩
    · intro j hj
      simp only [List.length_cons, List.length_nil] at hj
      omega
    · simp

/-- create_sub_record issues at most one request per invocation. -/
theorem create_sub_record_single (st : ClientState)
    (fields_json : List (String × JVal)) (subform_name : String)
    (respond : SubRecordRequest → Response) :
    (create_sub_record st fields_json subform_name respond).2.length ≤ 1 := by
  unfold create_sub_record
  simp only []
  repeat' split
  all_goals simp

/-- get_sub_record issues at most one request per invocation. -/
theorem get_sub_record_single (st : ClientState) (sub_record_id : Int)
    (sub_record_name : String) (respond : FieldContentRequest → Response) :
    (get_sub_record st sub_record_id sub_record_name respond).2.length ≤ 1 := by
  unfold get_sub_record
  simp only []
  repeat' split
  all_goals simp

/-- create_content_record issues at most one request per invocation. -/
theorem create_content_record_single (st : ClientState)
    (fields_json : List (String × JVal)) (record_id : Option Int)
    (respond : ContentRequest → Response) :
    (create_content_record st fields_json record_id respond).2.length ≤ 1 := by
  cases htr : transformFields st fields_json with
  | error e =>
    rw [create_content_record_error st fields_json record_id respond e htr]
    simp
  | ok t =>
    rw [(create_content_record_ok_requests st fields_json record_id respond
      t htr).1]

/-- C8: get_session_token is the only retried operation: its tenacity
policy makes between 1 and 3 attempts at consecutive indices, retries
only after a network error (every attempt before the last raised one),
and returns the last attempt's outcome as-is (success, a translated
AuthenticationError, or the reraised final network error); every other
modelled client operation issues its HTTP request at most once per
invocation (the pagination helper never repeats a batch request: its
requested skips are strictly increasing). -/
theorem retry_policy_c8 (credentials : Option AuthCredentials)
    (outcomes : Nat → AttemptOutcome) (st : ClientState)
    (fields_json : List (String × JVal)) (record_id : Option Int)
    (respond : ContentRequest → Response) (subform_name : String)
    (respondSub : SubRecordRequest → Response) (sub_record_id : Int)
    (respondFc : FieldContentRequest → Response)
    (respondGrc : Nat → GrcResponse)
    (endpoint_url key_value_field pre : String) (max_records : Nat) :
    ((1 ≤ (get_session_token credentials outcomes).2.length ∧
        (get_session_token credentials outcomes).2.length ≤ 3)
      ∧ (get_session_token credentials outcomes).2 =
          List.range (get_session_token credentials outcomes).2.length
      ∧ (∀ j, j + 1 < (get_session_token credentials outcomes).2.length →
          sessionTokenAttempt credentials outcomes j = .error .networkError)
      ∧ (get_session_token credentials outcomes).1 =
          sessionTokenAttempt credentials outcomes
            ((get_session_token credentials outcomes).2.length - 1))
    ∧ (create_content_record st fields_json record_id respond).2.length ≤ 1
    ∧ (update_content_record st fields_json sub_record_id
        respond).2.length ≤ 1
    ∧ (create_sub_record st fields_json subform_name respondSub).2.length ≤ 1
    ∧ (get_sub_record st sub_record_id subform_name respondFc).2.length ≤ 1
    ∧ List.Pairwise (· < ·)
        (build_unique_value_to_id_mapping st respondGrc endpoint_url
          key_value_field pre max_records).2.2 :=
  ⟨runWithRetry_three (sessionTokenAttempt credentials outcomes),
   create_content_record_single st fields_json record_id respond,
   create_content_record_single st fields_json (some sub_record_id) respond,
   create_sub_record_single st fields_json subform_name respondSub,
   get_sub_record_single st sub_record_id subform_name respondFc,
   by
     rw [build_unique_requests_eq]
     exact buildLoop_skips_sorted respondGrc max_records 21 0⟩

/-- Concrete attempt outcomes: a network error first, then a well-formed
login response. -/
def exOutcomes : Nat → AttemptOutcome := fun n =>
  if n = 0 then .networkError
  else .response ⟨200, JVal.obj
    [("RequestedObject", JVal.obj [("SessionToken", JVal.str "tok")])]⟩

/-- C8 witness: on the concrete outcome sequence two attempts are made
and the first, non-final attempt raised a network error. -/
theorem retry_policy_c8_witness :
    sessionTokenAttempt (some ⟨"u", "p"⟩) exOutcomes 0 =
      .error .networkError :=
  (retry_policy_c8 (some ⟨"u", "p"⟩) exOutcomes exSt [] none
      (fun _ => ⟨200, JVal.null⟩) "S" (fun _ => ⟨200, JVal.null⟩) 0
      (fun _ => ⟨200, JVal.null⟩) exResp "ep" "K" "P" 0).1.2.2.1 0
    (by decide)
